import Mathlib

/-!
Verification development for the `quercle-llama-index` package
(`llama_index/tools/quercle/base.py`).

The package is a thin adapter: a `QuercleToolSpec` object holds an optional
API key and an optional timeout, lazily constructs and caches one synchronous
and one asynchronous handle to the external Quercle client, and exposes five
paired (sync, async) operations — fetch, search, raw_fetch, raw_search,
extract — each of which forwards its arguments (plus the configured timeout)
to the corresponding client method and unwraps the response envelope's
`result` field into the returned value.

Embedding choices:
* Python's dynamically typed values are modelled by the `Json` inductive;
  a Python `str` is `Json.str s`.  `Json.dumps` transcribes the default
  behaviour of Python's `json.dumps` (`ensure_ascii=True`, separators
  `", "` and `": "`).
* The external client library is an opaque collaborator: its five methods
  are an oracle (`SyncClientOps` / `AsyncClientOps`) mapping the client
  handle and the forwarded arguments to `Except E Envelope`; a Python
  exception raised by a client call is `Except.error e`.
* Timeout values are only stored and forwarded, never computed with, so the
  embedding is parametric in the timeout type `T` (Python uses `float`);
  likewise the API-key type `K` and the exception type `E`.
* Each adapter operation returns its value together with the adapter state
  after the call and the list of externally visible events (client-handle
  constructions and client method calls), so that argument forwarding and
  construct-at-most-once properties can be stated.
-/

/-- Model of a Python JSON-serialisable value; a Python `str` is `Json.str`. -/
inductive Json where
  | str : String → Json
  | num : Int → Json
  | bool : Bool → Json
  | null : Json
  | arr : List Json → Json
  | obj : List (String × Json) → Json

/-- Hexadecimal digit characters. -/
def hexDigit (n : Nat) : Char :=
  if n < 10 then Char.ofNat (48 + n) else Char.ofNat (87 + (n % 16))

/-- Four-digit lowercase hexadecimal rendering, as in Python's `\uXXXX` escapes. -/
def hex4 (n : Nat) : String :=
  String.mk [hexDigit (n / 4096 % 16), hexDigit (n / 256 % 16),
             hexDigit (n / 16 % 16), hexDigit (n % 16)]

/-- Escape one character the way Python's `json.dumps` does with
`ensure_ascii=True`: `"` and `\` get a backslash, common control characters
use their short escapes, other control characters and all non-ASCII
characters become `\uXXXX` (a surrogate pair beyond the BMP). -/
def jsonEscapeChar (c : Char) : String :=
  if c = '"' then "\\\""
  else if c = '\\' then "\\\\"
  else if c = '\n' then "\\n"
  else if c = '\r' then "\\r"
  else if c = '\t' then "\\t"
  else if c.toNat = 8 then "\\b"
  else if c.toNat = 12 then "\\f"
  else if c.toNat < 32 then "\\u" ++ hex4 c.toNat
  else if c.toNat < 128 then String.mk [c]
  else if c.toNat < 65536 then "\\u" ++ hex4 c.toNat
  else
    let v := c.toNat - 65536
    "\\u" ++ hex4 (55296 + v / 1024) ++ "\\u" ++ hex4 (56320 + v % 1024)

/-- A JSON string literal as produced by Python's `json.dumps`. -/
def jsonEscape (s : String) : String :=
  "\"" ++ String.join (s.data.map jsonEscapeChar) ++ "\""

mutual
/-- Transcription of Python's `json.dumps` with its default options:
item separator `", "`, key separator `": "`, `ensure_ascii=True`. -/
def Json.dumps : Json → String
  | .str s => jsonEscape s
  | .num n => toString n
  | .bool b => if b then "true" else "false"
  | .null => "null"
  | .arr xs => "[" ++ Json.dumpsArr xs ++ "]"
  | .obj kvs => "\x7b" ++ Json.dumpsObj kvs ++ "\x7d"

/-- Comma-separated rendering of a JSON array's items. -/
def Json.dumpsArr : List Json → String
  | [] => ""
  | [x] => Json.dumps x
  | x :: y :: xs => Json.dumps x ++ ", " ++ Json.dumpsArr (y :: xs)

/-- Comma-separated rendering of a JSON object's key/value pairs. -/
def Json.dumpsObj : List (String × Json) → String
  | [] => ""
  | [(k, v)] => jsonEscape k ++ ": " ++ Json.dumps v
  | (k, v) :: p :: xs =>
      jsonEscape k ++ ": " ++ Json.dumps v ++ ", " ++ Json.dumpsObj (p :: xs)
end

/-- Whether a Python value is a `str` (`isinstance(result, str)`). -/
def Json.isStr : Json → Bool
  | .str _ => true
  | _ => false

/-- Transcription of `return result if isinstance(result, str) else
json.dumps(result)` from `raw_fetch` / `raw_search` / `extract`. -/
def serializeResult (result : Json) : Json :=
  if result.isStr then result else Json.str result.dumps

/-- Response envelope returned by the external client: the adapter reads only
its `result` field. -/
structure Envelope where
  result : Json

/-- Arguments the adapter passes to the client's `fetch` method
(`fetch(url=url, prompt=prompt, timeout=self._timeout)`). -/
structure FetchArgs (T : Type) where
  url : String
  prompt : String
  timeout : Option T
deriving DecidableEq, Repr

/-- Arguments the adapter passes to the client's `search` method
(`search(query, allowed_domains=..., blocked_domains=..., timeout=...)`). -/
structure SearchArgs (T : Type) where
  query : String
  allowed_domains : Option (List String)
  blocked_domains : Option (List String)
  timeout : Option T
deriving DecidableEq, Repr

/-- Arguments the adapter passes to the client's `raw_fetch` method
(`raw_fetch(url, format=..., use_safeguard=..., timeout=...)`). -/
structure RawFetchArgs (T : Type) where
  url : String
  format : Option String
  use_safeguard : Option Bool
  timeout : Option T
deriving DecidableEq, Repr

/-- Arguments the adapter passes to the client's `raw_search` method
(`raw_search(query, format=..., use_safeguard=..., timeout=...)`). -/
structure RawSearchArgs (T : Type) where
  query : String
  format : Option String
  use_safeguard : Option Bool
  timeout : Option T
deriving DecidableEq, Repr

/-- Arguments the adapter passes to the client's `extract` method
(`extract(url, query, format=..., use_safeguard=..., timeout=...)`). -/
structure ExtractArgs (T : Type) where
  url : String
  query : String
  format : Option String
  use_safeguard : Option Bool
  timeout : Option T
deriving DecidableEq, Repr

/-- The synchronous client handle.  The adapter constructs it as
`QuercleClient(api_key=self._api_key)` and gives it no other state. -/
structure QuercleClient (K : Type) where
  api_key : Option K
deriving DecidableEq, Repr

/-- The asynchronous client handle, constructed as
`AsyncQuercleClient(api_key=self._api_key)`. -/
structure AsyncQuercleClient (K : Type) where
  api_key : Option K
deriving DecidableEq, Repr

/-- Modelled from the spec: the external client library's constructors accept
`(credential, timeout)`.  This record captures which constructor arguments a
construction actually passed: `timeout = none` records that the adapter
omitted the timeout argument, `timeout = some t` that it passed `t`. -/
structure CtorArgs (K T : Type) where
  api_key : Option K
  timeout : Option (Option T)
deriving DecidableEq, Repr

/-- One forwarded method call on a client handle, tagging which client method
was invoked and with which arguments. -/
inductive MethodCall (T : Type) where
  | fetch (args : FetchArgs T)
  | search (args : SearchArgs T)
  | raw_fetch (args : RawFetchArgs T)
  | raw_search (args : RawSearchArgs T)
  | extract (args : ExtractArgs T)
deriving DecidableEq, Repr

/-- Externally visible events of an adapter operation: constructing a client
handle (with the constructor arguments passed) or invoking a method on a
client handle. -/
inductive Event (K T : Type) where
  | constructSync (args : CtorArgs K T)
  | constructAsync (args : CtorArgs K T)
  | callSync (client : QuercleClient K) (call : MethodCall T)
  | callAsync (client : AsyncQuercleClient K) (call : MethodCall T)
deriving DecidableEq, Repr

/-- The external synchronous client's five methods, as an oracle: given the
handle and the forwarded arguments it either returns an envelope or raises
(`Except.error`).  The client library is outside this repository. -/
structure SyncClientOps (K T E : Type) where
  fetch : QuercleClient K → FetchArgs T → Except E Envelope
  search : QuercleClient K → SearchArgs T → Except E Envelope
  raw_fetch : QuercleClient K → RawFetchArgs T → Except E Envelope
  raw_search : QuercleClient K → RawSearchArgs T → Except E Envelope
  extract : QuercleClient K → ExtractArgs T → Except E Envelope

/-- The external asynchronous client's five methods, as an oracle. -/
structure AsyncClientOps (K T E : Type) where
  fetch : AsyncQuercleClient K → FetchArgs T → Except E Envelope
  search : AsyncQuercleClient K → SearchArgs T → Except E Envelope
  raw_fetch : AsyncQuercleClient K → RawFetchArgs T → Except E Envelope
  raw_search : AsyncQuercleClient K → RawSearchArgs T → Except E Envelope
  extract : AsyncQuercleClient K → ExtractArgs T → Except E Envelope

/-- State of a `QuercleToolSpec` adapter: the configuration stored by
`__init__` and the two lazily built client handles. -/
structure QuercleToolSpec (K T : Type) where
  api_key : Option K
  timeout : Option T
  sync_client : Option (QuercleClient K)
  async_client : Option (AsyncQuercleClient K)
deriving DecidableEq, Repr

/-- Transcription of `QuercleToolSpec.__init__`: store the key and timeout,
leave both client handles unset. -/
def QuercleToolSpec.init (api_key : Option K) (timeout : Option T) :
    QuercleToolSpec K T :=
  ⟨api_key, timeout, none, none⟩

/-- Transcription of `_get_sync_client`: build
`QuercleClient(api_key=self._api_key)` on first use, cache it, and return the
cached handle afterwards.  Also returns the construction events emitted. -/
def QuercleToolSpec.get_sync_client (s : QuercleToolSpec K T) :
    QuercleClient K × QuercleToolSpec K T × List (Event K T) :=
  match s.sync_client with
  | some c => (c, s, [])
  | none =>
      let c : QuercleClient K := ⟨s.api_key⟩
      (c, { s with sync_client := some c },
       [Event.constructSync ⟨s.api_key, none⟩])

/-- Transcription of `_get_async_client`: build
`AsyncQuercleClient(api_key=self._api_key)` on first use and cache it. -/
def QuercleToolSpec.get_async_client (s : QuercleToolSpec K T) :
    AsyncQuercleClient K × QuercleToolSpec K T × List (Event K T) :=
  match s.async_client with
  | some c => (c, s, [])
  | none =>
      let c : AsyncQuercleClient K := ⟨s.api_key⟩
      (c, { s with async_client := some c },
       [Event.constructAsync ⟨s.api_key, none⟩])

/-- Transcription of `QuercleToolSpec.fetch`: forward `url`, `prompt` and the
configured timeout to the sync client's `fetch` and return its `result`
field (no `isinstance` check in this method). -/
def QuercleToolSpec.fetch (ops : SyncClientOps K T E) (s : QuercleToolSpec K T)
    (url prompt : String) :
    Except E Json × QuercleToolSpec K T × List (Event K T) :=
  let (client, s2, evs) := s.get_sync_client
  let args : FetchArgs T := ⟨url, prompt, s2.timeout⟩
  let out := (ops.fetch client args).map Envelope.result
  (out, s2, evs ++ [Event.callSync client (MethodCall.fetch args)])

/-- Transcription of `QuercleToolSpec.afetch`: the same forwarding, but via
the cached async client's own `fetch`. -/
def QuercleToolSpec.afetch (aops : AsyncClientOps K T E)
    (s : QuercleToolSpec K T) (url prompt : String) :
    Except E Json × QuercleToolSpec K T × List (Event K T) :=
  let (client, s2, evs) := s.get_async_client
  let args : FetchArgs T := ⟨url, prompt, s2.timeout⟩
  let out := (aops.fetch client args).map Envelope.result
  (out, s2, evs ++ [Event.callAsync client (MethodCall.fetch args)])

/-- Transcription of `QuercleToolSpec.search`: forward the query, the domain
lists and the configured timeout, returning the envelope's `result`. -/
def QuercleToolSpec.search (ops : SyncClientOps K T E)
    (s : QuercleToolSpec K T) (query : String)
    (allowed_domains blocked_domains : Option (List String)) :
    Except E Json × QuercleToolSpec K T × List (Event K T) :=
  let (client, s2, evs) := s.get_sync_client
  let args : SearchArgs T := ⟨query, allowed_domains, blocked_domains, s2.timeout⟩
  let out := (ops.search client args).map Envelope.result
  (out, s2, evs ++ [Event.callSync client (MethodCall.search args)])

/-- Transcription of `QuercleToolSpec.asearch`. -/
def QuercleToolSpec.asearch (aops : AsyncClientOps K T E)
    (s : QuercleToolSpec K T) (query : String)
    (allowed_domains blocked_domains : Option (List String)) :
    Except E Json × QuercleToolSpec K T × List (Event K T) :=
  let (client, s2, evs) := s.get_async_client
  let args : SearchArgs T := ⟨query, allowed_domains, blocked_domains, s2.timeout⟩
  let out := (aops.search client args).map Envelope.result
  (out, s2, evs ++ [Event.callAsync client (MethodCall.search args)])

/-- Transcription of `QuercleToolSpec.raw_fetch`: forward the arguments plus
timeout, then `return result if isinstance(result, str) else
json.dumps(result)`. -/
def QuercleToolSpec.raw_fetch (ops : SyncClientOps K T E)
    (s : QuercleToolSpec K T) (url : String) (format : Option String)
    (use_safeguard : Option Bool) :
    Except E Json × QuercleToolSpec K T × List (Event K T) :=
  let (client, s2, evs) := s.get_sync_client
  let args : RawFetchArgs T := ⟨url, format, use_safeguard, s2.timeout⟩
  let out := (ops.raw_fetch client args).map fun r => serializeResult r.result
  (out, s2, evs ++ [Event.callSync client (MethodCall.raw_fetch args)])

/-- Transcription of `QuercleToolSpec.araw_fetch`. -/
def QuercleToolSpec.araw_fetch (aops : AsyncClientOps K T E)
    (s : QuercleToolSpec K T) (url : String) (format : Option String)
    (use_safeguard : Option Bool) :
    Except E Json × QuercleToolSpec K T × List (Event K T) :=
  let (client, s2, evs) := s.get_async_client
  let args : RawFetchArgs T := ⟨url, format, use_safeguard, s2.timeout⟩
  let out := (aops.raw_fetch client args).map fun r => serializeResult r.result
  (out, s2, evs ++ [Event.callAsync client (MethodCall.raw_fetch args)])

/-- Transcription of `QuercleToolSpec.raw_search`. -/
def QuercleToolSpec.raw_search (ops : SyncClientOps K T E)
    (s : QuercleToolSpec K T) (query : String) (format : Option String)
    (use_safeguard : Option Bool) :
    Except E Json × QuercleToolSpec K T × List (Event K T) :=
  let (client, s2, evs) := s.get_sync_client
  let args : RawSearchArgs T := ⟨query, format, use_safeguard, s2.timeout⟩
  let out := (ops.raw_search client args).map fun r => serializeResult r.result
  (out, s2, evs ++ [Event.callSync client (MethodCall.raw_search args)])

/-- Transcription of `QuercleToolSpec.araw_search`. -/
def QuercleToolSpec.araw_search (aops : AsyncClientOps K T E)
    (s : QuercleToolSpec K T) (query : String) (format : Option String)
    (use_safeguard : Option Bool) :
    Except E Json × QuercleToolSpec K T × List (Event K T) :=
  let (client, s2, evs) := s.get_async_client
  let args : RawSearchArgs T := ⟨query, format, use_safeguard, s2.timeout⟩
  let out := (aops.raw_search client args).map fun r => serializeResult r.result
  (out, s2, evs ++ [Event.callAsync client (MethodCall.raw_search args)])

/-- Transcription of `QuercleToolSpec.extract`. -/
def QuercleToolSpec.extract (ops : SyncClientOps K T E)
    (s : QuercleToolSpec K T) (url query : String) (format : Option String)
    (use_safeguard : Option Bool) :
    Except E Json × QuercleToolSpec K T × List (Event K T) :=
  let (client, s2, evs) := s.get_sync_client
  let args : ExtractArgs T := ⟨url, query, format, use_safeguard, s2.timeout⟩
  let out := (ops.extract client args).map fun r => serializeResult r.result
  (out, s2, evs ++ [Event.callSync client (MethodCall.extract args)])

/-- Transcription of `QuercleToolSpec.aextract`. -/
def QuercleToolSpec.aextract (aops : AsyncClientOps K T E)
    (s : QuercleToolSpec K T) (url query : String) (format : Option String)
    (use_safeguard : Option Bool) :
    Except E Json × QuercleToolSpec K T × List (Event K T) :=
  let (client, s2, evs) := s.get_async_client
  let args : ExtractArgs T := ⟨url, query, format, use_safeguard, s2.timeout⟩
  let out := (aops.extract client args).map fun r => serializeResult r.result
  (out, s2, evs ++ [Event.callAsync client (MethodCall.extract args)])

/-- The `spec_functions` table of `QuercleToolSpec`: the five (sync, async)
operation name pairs. -/
def QuercleToolSpec.spec_functions : List (String × String) :=
  [("fetch", "afetch"), ("search", "asearch"), ("raw_fetch", "araw_fetch"),
   ("raw_search", "araw_search"), ("extract", "aextract")]

/-- One adapter entry-point invocation (sync or async variant of one of the
five operations) together with its caller-supplied arguments. -/
inductive Call where
  | fetch (url prompt : String)
  | search (query : String) (allowed_domains blocked_domains : Option (List String))
  | raw_fetch (url : String) (format : Option String) (use_safeguard : Option Bool)
  | raw_search (query : String) (format : Option String) (use_safeguard : Option Bool)
  | extract (url query : String) (format : Option String) (use_safeguard : Option Bool)
  | afetch (url prompt : String)
  | asearch (query : String) (allowed_domains blocked_domains : Option (List String))
  | araw_fetch (url : String) (format : Option String) (use_safeguard : Option Bool)
  | araw_search (query : String) (format : Option String) (use_safeguard : Option Bool)
  | aextract (url query : String) (format : Option String) (use_safeguard : Option Bool)
deriving DecidableEq, Repr

/-- Whether a call is a synchronous entry point. -/
def Call.isSync : Call → Bool
  | .fetch _ _ | .search _ _ _ | .raw_fetch _ _ _
  | .raw_search _ _ _ | .extract _ _ _ _ => true
  | _ => false

/-- Dispatch one entry-point invocation to the corresponding adapter method. -/
def step (ops : SyncClientOps K T E) (aops : AsyncClientOps K T E)
    (s : QuercleToolSpec K T) :
    Call → Except E Json × QuercleToolSpec K T × List (Event K T)
  | .fetch url prompt => s.fetch ops url prompt
  | .search q a b => s.search ops q a b
  | .raw_fetch u f g => s.raw_fetch ops u f g
  | .raw_search q f g => s.raw_search ops q f g
  | .extract u q f g => s.extract ops u q f g
  | .afetch url prompt => s.afetch aops url prompt
  | .asearch q a b => s.asearch aops q a b
  | .araw_fetch u f g => s.araw_fetch aops u f g
  | .araw_search q f g => s.araw_search aops q f g
  | .aextract u q f g => s.aextract aops u q f g

/-- The envelope (or exception) the external client produces for one
entry-point invocation in state `s`: the relevant client method applied to
the handle the adapter would use and the arguments it forwards. -/
def clientResponse (ops : SyncClientOps K T E) (aops : AsyncClientOps K T E)
    (s : QuercleToolSpec K T) : Call → Except E Envelope
  | .fetch url prompt => ops.fetch s.get_sync_client.1 ⟨url, prompt, s.timeout⟩
  | .search q a b => ops.search s.get_sync_client.1 ⟨q, a, b, s.timeout⟩
  | .raw_fetch u f g => ops.raw_fetch s.get_sync_client.1 ⟨u, f, g, s.timeout⟩
  | .raw_search q f g => ops.raw_search s.get_sync_client.1 ⟨q, f, g, s.timeout⟩
  | .extract u q f g => ops.extract s.get_sync_client.1 ⟨u, q, f, g, s.timeout⟩
  | .afetch url prompt => aops.fetch s.get_async_client.1 ⟨url, prompt, s.timeout⟩
  | .asearch q a b => aops.search s.get_async_client.1 ⟨q, a, b, s.timeout⟩
  | .araw_fetch u f g => aops.raw_fetch s.get_async_client.1 ⟨u, f, g, s.timeout⟩
  | .araw_search q f g => aops.raw_search s.get_async_client.1 ⟨q, f, g, s.timeout⟩
  | .aextract u q f g => aops.extract s.get_async_client.1 ⟨u, q, f, g, s.timeout⟩

/-- Run a sequence of entry-point invocations from a state, accumulating the
emitted events. -/
def run (ops : SyncClientOps K T E) (aops : AsyncClientOps K T E)
    (s : QuercleToolSpec K T) :
    List Call → QuercleToolSpec K T × List (Event K T)
  | [] => (s, [])
  | c :: cs =>
      let r := step ops aops s c
      let rest := run ops aops r.2.1 cs
      (rest.1, r.2.2 ++ rest.2)

/-- Whether an event is a synchronous-client construction. -/
def Event.isConstructSync : Event K T → Bool
  | .constructSync _ => true
  | _ => false

/-- Whether an event is an asynchronous-client construction. -/
def Event.isConstructAsync : Event K T → Bool
  | .constructAsync _ => true
  | _ => false

/-- Number of synchronous-client constructions in an event list. -/
def countSyncCtor (evs : List (Event K T)) : Nat :=
  (evs.filter Event.isConstructSync).length

/-- Number of asynchronous-client constructions in an event list. -/
def countAsyncCtor (evs : List (Event K T)) : Nat :=
  (evs.filter Event.isConstructAsync).length

/-- Whether an `Except` value is a normal return. -/
def isOk : Except E A → Bool
  | .ok _ => true
  | .error _ => false


/-- One construction still possible for the sync handle: `1` while the handle
is unset, `0` once it is built. -/
def syncPotential (s : QuercleToolSpec K T) : Nat :=
  match s.sync_client with
  | none => 1
  | some _ => 0

/-- One construction still possible for the async handle. -/
def asyncPotential (s : QuercleToolSpec K T) : Nat :=
  match s.async_client with
  | none => 1
  | some _ => 0

/-- The five operations a factory can bind. -/
inductive Op where
  | fetch
  | search
  | raw_fetch
  | raw_search
  | extract
deriving DecidableEq, Repr

/-- Modelled from the spec: the `tool_metadata` table imported from the
external client library, supplying a fixed, externally supplied description
string for each operation. -/
structure QuercleToolMetadata where
  description : Op → String

/-- Modelled from the spec: the agent framework's tool descriptor of shape
name, description, sync entry point, async entry point.  The two entry
points are the sync/async method pair of operation `op` bound to the adapter
instance `adapter`. -/
structure FunctionTool (K T : Type) where
  name : String
  description : String
  adapter : QuercleToolSpec K T
  op : Op

/-- Modelled from the spec: `FunctionTool.from_defaults(fn=..., async_fn=...,
name=..., description=...)` packs a bound sync/async method pair, a name and
a description into a tool descriptor. -/
def FunctionTool.from_defaults (adapter : QuercleToolSpec K T) (op : Op)
    (name description : String) : FunctionTool K T :=
  ⟨name, description, adapter, op⟩

/-- Transcription of `create_quercle_fetch_tool`: build a fresh adapter and
wrap its fetch/afetch pair under the fixed name `quercle_fetch` with the
externally supplied description. -/
def create_quercle_fetch_tool (md : QuercleToolMetadata) (api_key : Option K)
    (timeout : Option T) : FunctionTool K T :=
  let spec := QuercleToolSpec.init api_key timeout
  FunctionTool.from_defaults spec Op.fetch ("quercle_fetch")
    (md.description Op.fetch)

/-- Transcription of `create_quercle_search_tool`. -/
def create_quercle_search_tool (md : QuercleToolMetadata) (api_key : Option K)
    (timeout : Option T) : FunctionTool K T :=
  let spec := QuercleToolSpec.init api_key timeout
  FunctionTool.from_defaults spec Op.search ("quercle_search")
    (md.description Op.search)

/-- Transcription of `create_quercle_raw_fetch_tool`. -/
def create_quercle_raw_fetch_tool (md : QuercleToolMetadata)
    (api_key : Option K) (timeout : Option T) : FunctionTool K T :=
  let spec := QuercleToolSpec.init api_key timeout
  FunctionTool.from_defaults spec Op.raw_fetch ("quercle_raw_fetch")
    (md.description Op.raw_fetch)

/-- Transcription of `create_quercle_raw_search_tool`. -/
def create_quercle_raw_search_tool (md : QuercleToolMetadata)
    (api_key : Option K) (timeout : Option T) : FunctionTool K T :=
  let spec := QuercleToolSpec.init api_key timeout
  FunctionTool.from_defaults spec Op.raw_search ("quercle_raw_search")
    (md.description Op.raw_search)

/-- Transcription of `create_quercle_extract_tool`. -/
def create_quercle_extract_tool (md : QuercleToolMetadata)
    (api_key : Option K) (timeout : Option T) : FunctionTool K T :=
  let spec := QuercleToolSpec.init api_key timeout
  FunctionTool.from_defaults spec Op.extract ("quercle_extract")
    (md.description Op.extract)

/-- A sample envelope with a textual result. -/
def envText : Envelope := ⟨Json.str ("Search results")⟩

/-- A sample envelope with a structured, non-textual result. -/
def envObj : Envelope := ⟨Json.obj [(("key"), Json.str ("value"))]⟩

/-- A sample freshly constructed adapter with a key and a timeout. -/
def sampleSpec : QuercleToolSpec String Nat :=
  QuercleToolSpec.init (some ("test_key")) (some 30)

/-- A sample adapter whose sync handle is already cached. -/
def cachedSpec : QuercleToolSpec String Nat :=
  ⟨some ("test_key"), some 30, some ⟨some ("test_key")⟩, none⟩

/-- A sync client oracle that always returns the same envelope. -/
def constOps (env : Envelope) : SyncClientOps String Nat String :=
  ⟨fun _ _ => .ok env, fun _ _ => .ok env, fun _ _ => .ok env,
   fun _ _ => .ok env, fun _ _ => .ok env⟩

/-- An async client oracle that always returns the same envelope. -/
def constAops (env : Envelope) : AsyncClientOps String Nat String :=
  ⟨fun _ _ => .ok env, fun _ _ => .ok env, fun _ _ => .ok env,
   fun _ _ => .ok env, fun _ _ => .ok env⟩

/-- A sync client oracle that always raises the same exception. -/
def errOps (e : String) : SyncClientOps String Nat String :=
  ⟨fun _ _ => .error e, fun _ _ => .error e, fun _ _ => .error e,
   fun _ _ => .error e, fun _ _ => .error e⟩

/-- An async client oracle that always raises the same exception. -/
def errAops (e : String) : AsyncClientOps String Nat String :=
  ⟨fun _ _ => .error e, fun _ _ => .error e, fun _ _ => .error e,
   fun _ _ => .error e, fun _ _ => .error e⟩

/-- A sample metadata table with a non-empty description per operation. -/
def sampleMetadata : QuercleToolMetadata :=
  ⟨fun _ => "Fetch and analyze web pages"⟩

/-- Unfolded form of `get_sync_client` when the handle is already cached. -/
theorem get_sync_client_of_some {s : QuercleToolSpec K T} {c : QuercleClient K}
    (h : s.sync_client = some c) : s.get_sync_client = (c, s, []) := by
  unfold QuercleToolSpec.get_sync_client
  rw [h]

/-- Unfolded form of `get_sync_client` on first use. -/
theorem get_sync_client_of_none {s : QuercleToolSpec K T}
    (h : s.sync_client = none) :
    s.get_sync_client =
      (⟨s.api_key⟩, { s with sync_client := some ⟨s.api_key⟩ },
       [Event.constructSync ⟨s.api_key, none⟩]) := by
  unfold QuercleToolSpec.get_sync_client
  rw [h]

/-- Unfolded form of `get_async_client` when the handle is already cached. -/
theorem get_async_client_of_some {s : QuercleToolSpec K T}
    {c : AsyncQuercleClient K} (h : s.async_client = some c) :
    s.get_async_client = (c, s, []) := by
  unfold QuercleToolSpec.get_async_client
  rw [h]

/-- Unfolded form of `get_async_client` on first use. -/
theorem get_async_client_of_none {s : QuercleToolSpec K T}
    (h : s.async_client = none) :
    s.get_async_client =
      (⟨s.api_key⟩, { s with async_client := some ⟨s.api_key⟩ },
       [Event.constructAsync ⟨s.api_key, none⟩]) := by
  unfold QuercleToolSpec.get_async_client
  rw [h]

/-- `_get_sync_client` leaves the api key unchanged. -/
theorem get_sync_client_api_key (s : QuercleToolSpec K T) :
    s.get_sync_client.2.1.api_key = s.api_key := by
  rcases h : s.sync_client with _ | c
  · rw [get_sync_client_of_none h]
  · rw [get_sync_client_of_some h]

/-- `_get_sync_client` leaves the timeout unchanged. -/
theorem get_sync_client_timeout (s : QuercleToolSpec K T) :
    s.get_sync_client.2.1.timeout = s.timeout := by
  rcases h : s.sync_client with _ | c
  · rw [get_sync_client_of_none h]
  · rw [get_sync_client_of_some h]

/-- `_get_sync_client` leaves the async handle unchanged. -/
theorem get_sync_client_async_client (s : QuercleToolSpec K T) :
    s.get_sync_client.2.1.async_client = s.async_client := by
  rcases h : s.sync_client with _ | c
  · rw [get_sync_client_of_none h]
  · rw [get_sync_client_of_some h]

/-- After `_get_sync_client`, the sync handle is the returned client. -/
theorem get_sync_client_caches (s : QuercleToolSpec K T) :
    s.get_sync_client.2.1.sync_client = some s.get_sync_client.1 := by
  rcases h : s.sync_client with _ | c
  · rw [get_sync_client_of_none h]
  · rw [get_sync_client_of_some h]; exact h

/-- `_get_async_client` leaves the api key unchanged. -/
theorem get_async_client_api_key (s : QuercleToolSpec K T) :
    s.get_async_client.2.1.api_key = s.api_key := by
  rcases h : s.async_client with _ | c
  · rw [get_async_client_of_none h]
  · rw [get_async_client_of_some h]

/-- `_get_async_client` leaves the timeout unchanged. -/
theorem get_async_client_timeout (s : QuercleToolSpec K T) :
    s.get_async_client.2.1.timeout = s.timeout := by
  rcases h : s.async_client with _ | c
  · rw [get_async_client_of_none h]
  · rw [get_async_client_of_some h]

/-- `_get_async_client` leaves the sync handle unchanged. -/
theorem get_async_client_sync_client (s : QuercleToolSpec K T) :
    s.get_async_client.2.1.sync_client = s.sync_client := by
  rcases h : s.async_client with _ | c
  · rw [get_async_client_of_none h]
  · rw [get_async_client_of_some h]

/-- After `_get_async_client`, the async handle is the returned client. -/
theorem get_async_client_caches (s : QuercleToolSpec K T) :
    s.get_async_client.2.1.async_client = some s.get_async_client.1 := by
  rcases h : s.async_client with _ | c
  · rw [get_async_client_of_none h]
  · rw [get_async_client_of_some h]; exact h

/-- The construction events `_get_sync_client` can emit. -/
theorem get_sync_client_events (s : QuercleToolSpec K T) :
    s.get_sync_client.2.2 = [] ∨
    s.get_sync_client.2.2 = [Event.constructSync ⟨s.api_key, none⟩] := by
  rcases h : s.sync_client with _ | c
  · rw [get_sync_client_of_none h]; right; rfl
  · rw [get_sync_client_of_some h]; left; rfl

/-- The construction events `_get_async_client` can emit. -/
theorem get_async_client_events (s : QuercleToolSpec K T) :
    s.get_async_client.2.2 = [] ∨
    s.get_async_client.2.2 = [Event.constructAsync ⟨s.api_key, none⟩] := by
  rcases h : s.async_client with _ | c
  · rw [get_async_client_of_none h]; right; rfl
  · rw [get_async_client_of_some h]; left; rfl


/-- Equation form of `QuercleToolSpec.fetch`. -/
theorem fetch_def (ops : SyncClientOps K T E) (s : QuercleToolSpec K T)
    (url prompt : String) :
    s.fetch ops url prompt =
      ((ops.fetch s.get_sync_client.1 ⟨url, prompt, s.timeout⟩).map Envelope.result,
       s.get_sync_client.2.1,
       s.get_sync_client.2.2 ++
         [Event.callSync s.get_sync_client.1
           (MethodCall.fetch ⟨url, prompt, s.timeout⟩)]) := by
  have ht := get_sync_client_timeout s
  rcases hsc : s.get_sync_client with ⟨client, s2, evs⟩
  simp only [hsc] at ht
  simp only [QuercleToolSpec.fetch, hsc, ht]

/-- Equation form of `QuercleToolSpec.afetch`. -/
theorem afetch_def (aops : AsyncClientOps K T E) (s : QuercleToolSpec K T)
    (url prompt : String) :
    s.afetch aops url prompt =
      ((aops.fetch s.get_async_client.1 ⟨url, prompt, s.timeout⟩).map Envelope.result,
       s.get_async_client.2.1,
       s.get_async_client.2.2 ++
         [Event.callAsync s.get_async_client.1
           (MethodCall.fetch ⟨url, prompt, s.timeout⟩)]) := by
  have ht := get_async_client_timeout s
  rcases hsc : s.get_async_client with ⟨client, s2, evs⟩
  simp only [hsc] at ht
  simp only [QuercleToolSpec.afetch, hsc, ht]

/-- Equation form of `QuercleToolSpec.search`. -/
theorem search_def (ops : SyncClientOps K T E) (s : QuercleToolSpec K T)
    (q : String) (a b : Option (List String)) :
    s.search ops q a b =
      ((ops.search s.get_sync_client.1 ⟨q, a, b, s.timeout⟩).map Envelope.result,
       s.get_sync_client.2.1,
       s.get_sync_client.2.2 ++
         [Event.callSync s.get_sync_client.1
           (MethodCall.search ⟨q, a, b, s.timeout⟩)]) := by
  have ht := get_sync_client_timeout s
  rcases hsc : s.get_sync_client with ⟨client, s2, evs⟩
  simp only [hsc] at ht
  simp only [QuercleToolSpec.search, hsc, ht]

/-- Equation form of `QuercleToolSpec.asearch`. -/
theorem asearch_def (aops : AsyncClientOps K T E) (s : QuercleToolSpec K T)
    (q : String) (a b : Option (List String)) :
    s.asearch aops q a b =
      ((aops.search s.get_async_client.1 ⟨q, a, b, s.timeout⟩).map Envelope.result,
       s.get_async_client.2.1,
       s.get_async_client.2.2 ++
         [Event.callAsync s.get_async_client.1
           (MethodCall.search ⟨q, a, b, s.timeout⟩)]) := by
  have ht := get_async_client_timeout s
  rcases hsc : s.get_async_client with ⟨client, s2, evs⟩
  simp only [hsc] at ht
  simp only [QuercleToolSpec.asearch, hsc, ht]

/-- Equation form of `QuercleToolSpec.raw_fetch`. -/
theorem raw_fetch_def (ops : SyncClientOps K T E) (s : QuercleToolSpec K T)
    (u : String) (f : Option String) (g : Option Bool) :
    s.raw_fetch ops u f g =
      ((ops.raw_fetch s.get_sync_client.1 ⟨u, f, g, s.timeout⟩).map
         (fun r => serializeResult r.result),
       s.get_sync_client.2.1,
       s.get_sync_client.2.2 ++
         [Event.callSync s.get_sync_client.1
           (MethodCall.raw_fetch ⟨u, f, g, s.timeout⟩)]) := by
  have ht := get_sync_client_timeout s
  rcases hsc : s.get_sync_client with ⟨client, s2, evs⟩
  simp only [hsc] at ht
  simp only [QuercleToolSpec.raw_fetch, hsc, ht]

/-- Equation form of `QuercleToolSpec.araw_fetch`. -/
theorem araw_fetch_def (aops : AsyncClientOps K T E) (s : QuercleToolSpec K T)
    (u : String) (f : Option String) (g : Option Bool) :
    s.araw_fetch aops u f g =
      ((aops.raw_fetch s.get_async_client.1 ⟨u, f, g, s.timeout⟩).map
         (fun r => serializeResult r.result),
       s.get_async_client.2.1,
       s.get_async_client.2.2 ++
         [Event.callAsync s.get_async_client.1
           (MethodCall.raw_fetch ⟨u, f, g, s.timeout⟩)]) := by
  have ht := get_async_client_timeout s
  rcases hsc : s.get_async_client with ⟨client, s2, evs⟩
  simp only [hsc] at ht
  simp only [QuercleToolSpec.araw_fetch, hsc, ht]

/-- Equation form of `QuercleToolSpec.raw_search`. -/
theorem raw_search_def (ops : SyncClientOps K T E) (s : QuercleToolSpec K T)
    (q : String) (f : Option String) (g : Option Bool) :
    s.raw_search ops q f g =
      ((ops.raw_search s.get_sync_client.1 ⟨q, f, g, s.timeout⟩).map
         (fun r => serializeResult r.result),
       s.get_sync_client.2.1,
       s.get_sync_client.2.2 ++
         [Event.callSync s.get_sync_client.1
           (MethodCall.raw_search ⟨q, f, g, s.timeout⟩)]) := by
  have ht := get_sync_client_timeout s
  rcases hsc : s.get_sync_client with ⟨client, s2, evs⟩
  simp only [hsc] at ht
  simp only [QuercleToolSpec.raw_search, hsc, ht]

/-- Equation form of `QuercleToolSpec.araw_search`. -/
theorem araw_search_def (aops : AsyncClientOps K T E) (s : QuercleToolSpec K T)
    (q : String) (f : Option String) (g : Option Bool) :
    s.araw_search aops q f g =
      ((aops.raw_search s.get_async_client.1 ⟨q, f, g, s.timeout⟩).map
         (fun r => serializeResult r.result),
       s.get_async_client.2.1,
       s.get_async_client.2.2 ++
         [Event.callAsync s.get_async_client.1
           (MethodCall.raw_search ⟨q, f, g, s.timeout⟩)]) := by
  have ht := get_async_client_timeout s
  rcases hsc : s.get_async_client with ⟨client, s2, evs⟩
  simp only [hsc] at ht
  simp only [QuercleToolSpec.araw_search, hsc, ht]

/-- Equation form of `QuercleToolSpec.extract`. -/
theorem extract_def (ops : SyncClientOps K T E) (s : QuercleToolSpec K T)
    (u q : String) (f : Option String) (g : Option Bool) :
    s.extract ops u q f g =
      ((ops.extract s.get_sync_client.1 ⟨u, q, f, g, s.timeout⟩).map
         (fun r => serializeResult r.result),
       s.get_sync_client.2.1,
       s.get_sync_client.2.2 ++
         [Event.callSync s.get_sync_client.1
           (MethodCall.extract ⟨u, q, f, g, s.timeout⟩)]) := by
  have ht := get_sync_client_timeout s
  rcases hsc : s.get_sync_client with ⟨client, s2, evs⟩
  simp only [hsc] at ht
  simp only [QuercleToolSpec.extract, hsc, ht]

/-- Equation form of `QuercleToolSpec.aextract`. -/
theorem aextract_def (aops : AsyncClientOps K T E) (s : QuercleToolSpec K T)
    (u q : String) (f : Option String) (g : Option Bool) :
    s.aextract aops u q f g =
      ((aops.extract s.get_async_client.1 ⟨u, q, f, g, s.timeout⟩).map
         (fun r => serializeResult r.result),
       s.get_async_client.2.1,
       s.get_async_client.2.2 ++
         [Event.callAsync s.get_async_client.1
           (MethodCall.extract ⟨u, q, f, g, s.timeout⟩)]) := by
  have ht := get_async_client_timeout s
  rcases hsc : s.get_async_client with ⟨client, s2, evs⟩
  simp only [hsc] at ht
  simp only [QuercleToolSpec.aextract, hsc, ht]

/-- Mapping a function over an `Except` preserves the error, unchanged. -/
theorem map_error_iff (resp : Except E A) (f : A → B) (e : E) :
    resp.map f = .error e ↔ resp = .error e := by
  cases resp <;> simp [Except.map]

/-- Mapping a function over an `Except` preserves normal return. -/
theorem isOk_map (resp : Except E A) (f : A → B) :
    isOk (resp.map f) = isOk resp := by
  cases resp <;> rfl

/-- Construction counts add over concatenation of event lists. -/
theorem countSyncCtor_append (a b : List (Event K T)) :
    countSyncCtor (a ++ b) = countSyncCtor a + countSyncCtor b := by
  simp [countSyncCtor, List.filter_append]

/-- Construction counts add over concatenation of event lists. -/
theorem countAsyncCtor_append (a b : List (Event K T)) :
    countAsyncCtor (a ++ b) = countAsyncCtor a + countAsyncCtor b := by
  simp [countAsyncCtor, List.filter_append]

/-- A method-call event is not a sync construction. -/
theorem countSyncCtor_callSync (c : QuercleClient K) (m : MethodCall T) :
    countSyncCtor [Event.callSync c m] = 0 := rfl

/-- A method-call event is not a sync construction. -/
theorem countSyncCtor_callAsync (c : AsyncQuercleClient K) (m : MethodCall T) :
    countSyncCtor [Event.callAsync c m] = 0 := rfl

/-- A method-call event is not an async construction. -/
theorem countAsyncCtor_callSync (c : QuercleClient K) (m : MethodCall T) :
    countAsyncCtor [Event.callSync c m] = 0 := rfl

/-- A method-call event is not an async construction. -/
theorem countAsyncCtor_callAsync (c : AsyncQuercleClient K) (m : MethodCall T) :
    countAsyncCtor [Event.callAsync c m] = 0 := rfl

/-- `_get_sync_client` spends exactly the remaining sync-construction budget
it uses: constructions emitted plus remaining potential equal the potential
before the call. -/
theorem get_sync_count (s : QuercleToolSpec K T) :
    countSyncCtor s.get_sync_client.2.2 + syncPotential s.get_sync_client.2.1 =
      syncPotential s := by
  rcases h : s.sync_client with _ | c
  · rw [get_sync_client_of_none h]
    simp [countSyncCtor, Event.isConstructSync, syncPotential, h]
  · rw [get_sync_client_of_some h]
    simp [countSyncCtor, syncPotential, h]

/-- `_get_async_client` spends exactly the async-construction budget it uses. -/
theorem get_async_count (s : QuercleToolSpec K T) :
    countAsyncCtor s.get_async_client.2.2 +
      asyncPotential s.get_async_client.2.1 = asyncPotential s := by
  rcases h : s.async_client with _ | c
  · rw [get_async_client_of_none h]
    simp [countAsyncCtor, Event.isConstructAsync, asyncPotential, h]
  · rw [get_async_client_of_some h]
    simp [countAsyncCtor, asyncPotential, h]

/-- `_get_sync_client` emits no async construction. -/
theorem countAsyncCtor_get_sync (s : QuercleToolSpec K T) :
    countAsyncCtor s.get_sync_client.2.2 = 0 := by
  rcases get_sync_client_events s with h | h <;>
    simp [h, countAsyncCtor, Event.isConstructAsync]

/-- `_get_async_client` emits no sync construction. -/
theorem countSyncCtor_get_async (s : QuercleToolSpec K T) :
    countSyncCtor s.get_async_client.2.2 = 0 := by
  rcases get_async_client_events s with h | h <;>
    simp [h, countSyncCtor, Event.isConstructSync]

/-- The sync potential only depends on the sync handle. -/
theorem syncPotential_get_async (s : QuercleToolSpec K T) :
    syncPotential s.get_async_client.2.1 = syncPotential s := by
  simp [syncPotential, get_async_client_sync_client]

/-- The async potential only depends on the async handle. -/
theorem asyncPotential_get_sync (s : QuercleToolSpec K T) :
    asyncPotential s.get_sync_client.2.1 = asyncPotential s := by
  simp [asyncPotential, get_sync_client_async_client]

/-- Once built, the sync handle is `0`-potential. -/
theorem syncPotential_get_sync (s : QuercleToolSpec K T) :
    syncPotential s.get_sync_client.2.1 = 0 := by
  simp [syncPotential, get_sync_client_caches]

/-- Once built, the async handle is `0`-potential. -/
theorem asyncPotential_get_async (s : QuercleToolSpec K T) :
    asyncPotential s.get_async_client.2.1 = 0 := by
  simp [asyncPotential, get_async_client_caches]

/-- Each entry-point invocation spends exactly the sync-construction budget
it uses. -/
theorem step_sync_count (ops : SyncClientOps K T E) (aops : AsyncClientOps K T E)
    (s : QuercleToolSpec K T) (c : Call) :
    countSyncCtor (step ops aops s c).2.2 +
      syncPotential (step ops aops s c).2.1 = syncPotential s := by
  cases c <;>
    simp [step, fetch_def, search_def, raw_fetch_def, raw_search_def,
      extract_def, afetch_def, asearch_def, araw_fetch_def, araw_search_def,
      aextract_def, countSyncCtor_append, countSyncCtor_callSync,
      countSyncCtor_callAsync, get_sync_count, countSyncCtor_get_async,
      syncPotential_get_async]

/-- Each entry-point invocation spends exactly the async-construction budget
it uses. -/
theorem step_async_count (ops : SyncClientOps K T E) (aops : AsyncClientOps K T E)
    (s : QuercleToolSpec K T) (c : Call) :
    countAsyncCtor (step ops aops s c).2.2 +
      asyncPotential (step ops aops s c).2.1 = asyncPotential s := by
  cases c <;>
    simp [step, fetch_def, search_def, raw_fetch_def, raw_search_def,
      extract_def, afetch_def, asearch_def, araw_fetch_def, araw_search_def,
      aextract_def, countAsyncCtor_append, countAsyncCtor_callSync,
      countAsyncCtor_callAsync, get_async_count, countAsyncCtor_get_sync,
      asyncPotential_get_sync]

/-- Over a whole call sequence, sync constructions plus remaining budget
equal the initial budget. -/
theorem run_sync_count (ops : SyncClientOps K T E) (aops : AsyncClientOps K T E)
    (s : QuercleToolSpec K T) (cs : List Call) :
    countSyncCtor (run ops aops s cs).2 +
      syncPotential (run ops aops s cs).1 = syncPotential s := by
  induction cs generalizing s with
  | nil => simp [run, countSyncCtor]
  | cons c cs ih =>
      have hstep := step_sync_count ops aops s c
      calc countSyncCtor (run ops aops s (c :: cs)).2 +
            syncPotential (run ops aops s (c :: cs)).1
          = countSyncCtor (step ops aops s c).2.2 +
              (countSyncCtor (run ops aops (step ops aops s c).2.1 cs).2 +
               syncPotential (run ops aops (step ops aops s c).2.1 cs).1) := by
            simp [run, countSyncCtor_append, Nat.add_assoc]
        _ = countSyncCtor (step ops aops s c).2.2 +
              syncPotential (step ops aops s c).2.1 := by
            rw [ih]
        _ = syncPotential s := hstep

/-- Over a whole call sequence, async constructions plus remaining budget
equal the initial budget. -/
theorem run_async_count (ops : SyncClientOps K T E) (aops : AsyncClientOps K T E)
    (s : QuercleToolSpec K T) (cs : List Call) :
    countAsyncCtor (run ops aops s cs).2 +
      asyncPotential (run ops aops s cs).1 = asyncPotential s := by
  induction cs generalizing s with
  | nil => simp [run, countAsyncCtor]
  | cons c cs ih =>
      have hstep := step_async_count ops aops s c
      calc countAsyncCtor (run ops aops s (c :: cs)).2 +
            asyncPotential (run ops aops s (c :: cs)).1
          = countAsyncCtor (step ops aops s c).2.2 +
              (countAsyncCtor (run ops aops (step ops aops s c).2.1 cs).2 +
               asyncPotential (run ops aops (step ops aops s c).2.1 cs).1) := by
            simp [run, countAsyncCtor_append, Nat.add_assoc]
        _ = countAsyncCtor (step ops aops s c).2.2 +
              asyncPotential (step ops aops s c).2.1 := by
            rw [ih]
        _ = asyncPotential s := hstep

/-- An entry-point invocation keeps a cached sync handle and uses it for
every sync client call it makes. -/
theorem step_sync_cached (ops : SyncClientOps K T E)
    (aops : AsyncClientOps K T E) (s : QuercleToolSpec K T) (c : Call)
    (c0 : QuercleClient K) (h : s.sync_client = some c0) :
    (step ops aops s c).2.1.sync_client = some c0 ∧
    ∀ cl m, Event.callSync cl m ∈ (step ops aops s c).2.2 → cl = c0 := by
  have hg := get_sync_client_of_some h
  cases c <;>
    simp [step, fetch_def, search_def, raw_fetch_def, raw_search_def,
      extract_def, afetch_def, asearch_def, araw_fetch_def, araw_search_def,
      aextract_def, hg, h, get_async_client_sync_client] <;>
    rcases get_async_client_events s with he | he <;>
    simp [he]

/-- An entry-point invocation keeps a cached async handle and uses it for
every async client call it makes. -/
theorem step_async_cached (ops : SyncClientOps K T E)
    (aops : AsyncClientOps K T E) (s : QuercleToolSpec K T) (c : Call)
    (c0 : AsyncQuercleClient K) (h : s.async_client = some c0) :
    (step ops aops s c).2.1.async_client = some c0 ∧
    ∀ cl m, Event.callAsync cl m ∈ (step ops aops s c).2.2 → cl = c0 := by
  have hg := get_async_client_of_some h
  cases c <;>
    simp [step, fetch_def, search_def, raw_fetch_def, raw_search_def,
      extract_def, afetch_def, asearch_def, araw_fetch_def, araw_search_def,
      aextract_def, hg, h, get_sync_client_async_client] <;>
    rcases get_sync_client_events s with he | he <;>
    simp [he]

/-- A whole call sequence keeps a cached sync handle and uses it for every
sync client call it makes. -/
theorem run_sync_cached (ops : SyncClientOps K T E)
    (aops : AsyncClientOps K T E) (s : QuercleToolSpec K T) (cs : List Call)
    (c0 : QuercleClient K) (h : s.sync_client = some c0) :
    (run ops aops s cs).1.sync_client = some c0 ∧
    ∀ cl m, Event.callSync cl m ∈ (run ops aops s cs).2 → cl = c0 := by
  induction cs generalizing s with
  | nil => exact ⟨by simpa [run] using h, by simp [run]⟩
  | cons c cs ih =>
      have hstep := step_sync_cached ops aops s c c0 h
      have hrest := ih (step ops aops s c).2.1 hstep.1
      refine ⟨by simpa [run] using hrest.1, ?_⟩
      intro cl m hm
      simp only [run, List.mem_append] at hm
      rcases hm with hm | hm
      · exact hstep.2 cl m hm
      · exact hrest.2 cl m hm

/-- A whole call sequence keeps a cached async handle and uses it for every
async client call it makes. -/
theorem run_async_cached (ops : SyncClientOps K T E)
    (aops : AsyncClientOps K T E) (s : QuercleToolSpec K T) (cs : List Call)
    (c0 : AsyncQuercleClient K) (h : s.async_client = some c0) :
    (run ops aops s cs).1.async_client = some c0 ∧
    ∀ cl m, Event.callAsync cl m ∈ (run ops aops s cs).2 → cl = c0 := by
  induction cs generalizing s with
  | nil => exact ⟨by simpa [run] using h, by simp [run]⟩
  | cons c cs ih =>
      have hstep := step_async_cached ops aops s c c0 h
      have hrest := ih (step ops aops s c).2.1 hstep.1
      refine ⟨by simpa [run] using hrest.1, ?_⟩
      intro cl m hm
      simp only [run, List.mem_append] at hm
      rcases hm with hm | hm
      · exact hstep.2 cl m hm
      · exact hrest.2 cl m hm

/-- The state after an entry-point invocation is the state after fetching the
appropriate client handle. -/
theorem step_state (ops : SyncClientOps K T E) (aops : AsyncClientOps K T E)
    (s : QuercleToolSpec K T) (c : Call) :
    (step ops aops s c).2.1 =
      if c.isSync then s.get_sync_client.2.1 else s.get_async_client.2.1 := by
  cases c <;>
    simp [step, Call.isSync, fetch_def, search_def, raw_fetch_def,
      raw_search_def, extract_def, afetch_def, asearch_def, araw_fetch_def,
      araw_search_def, aextract_def]

/-- Claim C7: constructing an adapter with no arguments always succeeds
(`QuercleToolSpec.init` is a total function performing no I/O) and yields a
state with the credential unset, the timeout unset, and neither client
handle created. -/
theorem init_with_no_arguments_leaves_all_unset (K T : Type) :
    (QuercleToolSpec.init (none : Option K) (none : Option T)).api_key = none ∧
    (QuercleToolSpec.init (none : Option K) (none : Option T)).timeout = none ∧
    (QuercleToolSpec.init (none : Option K) (none : Option T)).sync_client = none ∧
    (QuercleToolSpec.init (none : Option K) (none : Option T)).async_client = none :=
  ⟨rfl, rfl, rfl, rfl⟩

/-- Claim C1: each synchronous entry point invokes the corresponding method
of the cached sync client with exactly the given arguments plus the
configured timeout (the single `callSync` event carries precisely those
arguments), and when the envelope's `result` field is a string the entry
point returns that string unchanged. -/
theorem sync_entry_points_forward_exact_args
    (ops : SyncClientOps K T E) (s : QuercleToolSpec K T)
    (url prompt q : String) (a b : Option (List String))
    (f : Option String) (g : Option Bool) (r : String) :
    ((s.fetch ops url prompt).2.2 =
       s.get_sync_client.2.2 ++
         [Event.callSync s.get_sync_client.1
           (MethodCall.fetch ⟨url, prompt, s.timeout⟩)]) ∧
    (ops.fetch s.get_sync_client.1 ⟨url, prompt, s.timeout⟩ = .ok ⟨Json.str r⟩ →
       (s.fetch ops url prompt).1 = .ok (Json.str r)) ∧
    ((s.search ops q a b).2.2 =
       s.get_sync_client.2.2 ++
         [Event.callSync s.get_sync_client.1
           (MethodCall.search ⟨q, a, b, s.timeout⟩)]) ∧
    (ops.search s.get_sync_client.1 ⟨q, a, b, s.timeout⟩ = .ok ⟨Json.str r⟩ →
       (s.search ops q a b).1 = .ok (Json.str r)) ∧
    ((s.raw_fetch ops url f g).2.2 =
       s.get_sync_client.2.2 ++
         [Event.callSync s.get_sync_client.1
           (MethodCall.raw_fetch ⟨url, f, g, s.timeout⟩)]) ∧
    (ops.raw_fetch s.get_sync_client.1 ⟨url, f, g, s.timeout⟩ = .ok ⟨Json.str r⟩ →
       (s.raw_fetch ops url f g).1 = .ok (Json.str r)) ∧
    ((s.raw_search ops q f g).2.2 =
       s.get_sync_client.2.2 ++
         [Event.callSync s.get_sync_client.1
           (MethodCall.raw_search ⟨q, f, g, s.timeout⟩)]) ∧
    (ops.raw_search s.get_sync_client.1 ⟨q, f, g, s.timeout⟩ = .ok ⟨Json.str r⟩ →
       (s.raw_search ops q f g).1 = .ok (Json.str r)) ∧
    ((s.extract ops url q f g).2.2 =
       s.get_sync_client.2.2 ++
         [Event.callSync s.get_sync_client.1
           (MethodCall.extract ⟨url, q, f, g, s.timeout⟩)]) ∧
    (ops.extract s.get_sync_client.1 ⟨url, q, f, g, s.timeout⟩ = .ok ⟨Json.str r⟩ →
       (s.extract ops url q f g).1 = .ok (Json.str r)) := by
  refine ⟨?_, ?_, ?_, ?_, ?_, ?_, ?_, ?_, ?_, ?_⟩
  · simp [fetch_def]
  · intro h; simp [fetch_def, h, Except.map]
  · simp [search_def]
  · intro h; simp [search_def, h, Except.map]
  · simp [raw_fetch_def]
  · intro h; simp [raw_fetch_def, h, Except.map, serializeResult, Json.isStr]
  · simp [raw_search_def]
  · intro h; simp [raw_search_def, h, Except.map, serializeResult, Json.isStr]
  · simp [extract_def]
  · intro h; simp [extract_def, h, Except.map, serializeResult, Json.isStr]

/-- Witness for claim C1 at a concrete input: a fresh adapter's `search`
with a textual envelope returns that text. -/
theorem sync_entry_points_forward_exact_args_witness :
    (sampleSpec.search (constOps envText) ("Python news") none none).1 =
      .ok (Json.str ("Search results")) :=
  (sync_entry_points_forward_exact_args (constOps envText) sampleSpec
    ("https://example.com") ("Summarize") ("Python news") none none none none
    ("Search results")).2.2.2.1 rfl

/-- Counterexample to claim C2 as stated: the synchronous `fetch` entry point
returns a structured (non-string) `result` value unchanged — it does not
return its canonical JSON encoding as a string, since `fetch` has no
`isinstance(result, str)` / `json.dumps` step. -/
theorem fetch_returns_structured_result_unencoded :
    (sampleSpec.fetch (constOps envObj) ("https://example.com") ("Summarize")).1 =
      .ok (Json.obj [(("key"), Json.str ("value"))]) ∧
    (sampleSpec.fetch (constOps envObj) ("https://example.com") ("Summarize")).1 ≠
      .ok (Json.str ((Json.obj [(("key"), Json.str ("value"))]).dumps)) := by
  refine ⟨rfl, ?_⟩
  intro h
  injection h with h1
  exact Json.noConfusion h1

/-- Claim C2 (amended): only `raw_fetch`, `raw_search` and `extract` — in
both the synchronous and the asynchronous variant — return the canonical
JSON encoding of a non-string structured `result`; `fetch` and `search` (in
both variants) return the `result` field unchanged whatever its type. -/
theorem nonstring_results_encoded_by_raw_and_extract
    (ops : SyncClientOps K T E) (aops : AsyncClientOps K T E)
    (s : QuercleToolSpec K T) (url prompt q : String)
    (a b : Option (List String)) (f : Option String) (g : Option Bool)
    (env : Envelope) :
    (ops.raw_fetch s.get_sync_client.1 ⟨url, f, g, s.timeout⟩ = .ok env →
       env.result.isStr = false →
       (s.raw_fetch ops url f g).1 = .ok (Json.str env.result.dumps)) ∧
    (ops.raw_search s.get_sync_client.1 ⟨q, f, g, s.timeout⟩ = .ok env →
       env.result.isStr = false →
       (s.raw_search ops q f g).1 = .ok (Json.str env.result.dumps)) ∧
    (ops.extract s.get_sync_client.1 ⟨url, q, f, g, s.timeout⟩ = .ok env →
       env.result.isStr = false →
       (s.extract ops url q f g).1 = .ok (Json.str env.result.dumps)) ∧
    (aops.raw_fetch s.get_async_client.1 ⟨url, f, g, s.timeout⟩ = .ok env →
       env.result.isStr = false →
       (s.araw_fetch aops url f g).1 = .ok (Json.str env.result.dumps)) ∧
    (aops.raw_search s.get_async_client.1 ⟨q, f, g, s.timeout⟩ = .ok env →
       env.result.isStr = false →
       (s.araw_search aops q f g).1 = .ok (Json.str env.result.dumps)) ∧
    (aops.extract s.get_async_client.1 ⟨url, q, f, g, s.timeout⟩ = .ok env →
       env.result.isStr = false →
       (s.aextract aops url q f g).1 = .ok (Json.str env.result.dumps)) ∧
    (ops.fetch s.get_sync_client.1 ⟨url, prompt, s.timeout⟩ = .ok env →
       (s.fetch ops url prompt).1 = .ok env.result) ∧
    (ops.search s.get_sync_client.1 ⟨q, a, b, s.timeout⟩ = .ok env →
       (s.search ops q a b).1 = .ok env.result) ∧
    (aops.fetch s.get_async_client.1 ⟨url, prompt, s.timeout⟩ = .ok env →
       (s.afetch aops url prompt).1 = .ok env.result) ∧
    (aops.search s.get_async_client.1 ⟨q, a, b, s.timeout⟩ = .ok env →
       (s.asearch aops q a b).1 = .ok env.result) := by
  refine ⟨?_, ?_, ?_, ?_, ?_, ?_, ?_, ?_, ?_, ?_⟩
  · intro h hstr; simp [raw_fetch_def, h, Except.map, serializeResult, hstr]
  · intro h hstr; simp [raw_search_def, h, Except.map, serializeResult, hstr]
  · intro h hstr; simp [extract_def, h, Except.map, serializeResult, hstr]
  · intro h hstr; simp [araw_fetch_def, h, Except.map, serializeResult, hstr]
  · intro h hstr; simp [araw_search_def, h, Except.map, serializeResult, hstr]
  · intro h hstr; simp [aextract_def, h, Except.map, serializeResult, hstr]
  · intro h; simp [fetch_def, h, Except.map]
  · intro h; simp [search_def, h, Except.map]
  · intro h; simp [afetch_def, h, Except.map]
  · intro h; simp [asearch_def, h, Except.map]

/-- Witness for claim C2 (amended) at a concrete input: `raw_fetch` on the
envelope whose result is the object mapping key to value returns the literal
JSON text, exactly as the spec's example demands. -/
theorem nonstring_results_encoded_by_raw_and_extract_witness :
    (sampleSpec.raw_fetch (constOps envObj) ("https://example.com") none none).1 =
      .ok (Json.str (envObj.result.dumps)) ∧
    envObj.result.dumps = "\x7b\"key\": \"value\"\x7d" :=
  ⟨(nonstring_results_encoded_by_raw_and_extract (constOps envObj)
      (constAops envObj) sampleSpec ("https://example.com") ("Summarize")
      ("Python news") none none none none envObj).1 rfl rfl,
   rfl⟩

/-- Counterexample to claim C3 as stated: on first use, the sync client is
constructed with only the credential; the configured timeout is not among
the constructor arguments (the adapter calls
`QuercleClient(api_key=self._api_key)` with no timeout argument). -/
theorem client_ctor_not_given_timeout :
    sampleSpec.get_sync_client.2.2 =
      [Event.constructSync ⟨some ("test_key"), none⟩] ∧
    sampleSpec.get_sync_client.2.2 ≠
      [Event.constructSync ⟨some ("test_key"), some (some 30)⟩] := by
  refine ⟨rfl, ?_⟩
  decide

/-- Claim C3 (amended): on the first use of an operation in a given mode,
the client handle for that mode is constructed with the adapter's configured
credential as its only constructor argument; the configured timeout is not
passed to the constructor. -/
theorem client_ctor_receives_only_credential (s : QuercleToolSpec K T) :
    (s.sync_client = none →
       s.get_sync_client.2.2 = [Event.constructSync ⟨s.api_key, none⟩]) ∧
    (s.async_client = none →
       s.get_async_client.2.2 = [Event.constructAsync ⟨s.api_key, none⟩]) := by
  constructor
  · intro h; rw [get_sync_client_of_none h]
  · intro h; rw [get_async_client_of_none h]

/-- Witness for claim C3 (amended) at a concrete input. -/
theorem client_ctor_receives_only_credential_witness :
    sampleSpec.get_sync_client.2.2 =
      [Event.constructSync ⟨some ("test_key"), none⟩] :=
  (client_ctor_receives_only_credential sampleSpec).1 rfl

/-- Claim C4: from a fresh adapter, any call sequence constructs the sync
handle at most once and the async handle at most once; moreover, once a
handle is cached it is never replaced — the final state still holds it and
every later client call in that mode uses the identical cached handle. -/
theorem client_handles_constructed_at_most_once
    (ops : SyncClientOps K T E) (aops : AsyncClientOps K T E)
    (api_key : Option K) (timeout : Option T) (cs : List Call) :
    countSyncCtor
        (run ops aops (QuercleToolSpec.init api_key timeout) cs).2 ≤ 1 ∧
    countAsyncCtor
        (run ops aops (QuercleToolSpec.init api_key timeout) cs).2 ≤ 1 ∧
    (∀ (s : QuercleToolSpec K T) (c0 : QuercleClient K) (cs2 : List Call),
       s.sync_client = some c0 →
       (run ops aops s cs2).1.sync_client = some c0 ∧
       ∀ cl m, Event.callSync cl m ∈ (run ops aops s cs2).2 → cl = c0) ∧
    (∀ (s : QuercleToolSpec K T) (c0 : AsyncQuercleClient K) (cs2 : List Call),
       s.async_client = some c0 →
       (run ops aops s cs2).1.async_client = some c0 ∧
       ∀ cl m, Event.callAsync cl m ∈ (run ops aops s cs2).2 → cl = c0) := by
  refine ⟨?_, ?_, ?_, ?_⟩
  · have h := run_sync_count ops aops (QuercleToolSpec.init api_key timeout) cs
    have h1 : syncPotential (QuercleToolSpec.init api_key timeout) = 1 := rfl
    omega
  · have h := run_async_count ops aops (QuercleToolSpec.init api_key timeout) cs
    have h1 : asyncPotential (QuercleToolSpec.init api_key timeout) = 1 := rfl
    omega
  · intro s c0 cs2 h
    exact run_sync_cached ops aops s cs2 c0 h
  · intro s c0 cs2 h
    exact run_async_cached ops aops s cs2 c0 h

/-- Witness for claim C4 at concrete inputs: two consecutive fetches from a
fresh adapter construct at most one sync client, and an adapter that already
holds a sync handle still holds the identical handle after a search. -/
theorem client_handles_constructed_at_most_once_witness :
    countSyncCtor
        (run (constOps envText) (constAops envText)
          (QuercleToolSpec.init (some ("test_key")) (some 30))
          [Call.fetch ("u") ("p"), Call.fetch ("u") ("p")]).2 ≤ 1 ∧
    (run (constOps envText) (constAops envText) cachedSpec
        [Call.search ("q") none none]).1.sync_client =
      some ⟨some ("test_key")⟩ :=
  ⟨(client_handles_constructed_at_most_once (constOps envText)
      (constAops envText) (some ("test_key")) (some 30)
      [Call.fetch ("u") ("p"), Call.fetch ("u") ("p")]).1,
   ((client_handles_constructed_at_most_once (constOps envText)
      (constAops envText) (some ("test_key")) (some 30)
      [Call.search ("q") none none]).2.2.1 cachedSpec ⟨some ("test_key")⟩
      [Call.search ("q") none none] rfl).1⟩

/-- Claim C5: every entry point (all five operations, sync and async) raises
exactly the exception the external client call raises — it fails with error
`e` iff the client call failed with error `e` — and it returns normally iff
the client call returned normally. -/
theorem exceptions_propagate_unchanged (ops : SyncClientOps K T E)
    (aops : AsyncClientOps K T E) (s : QuercleToolSpec K T) (c : Call) :
    (∀ e, (step ops aops s c).1 = .error e ↔
       clientResponse ops aops s c = .error e) ∧
    isOk (step ops aops s c).1 = isOk (clientResponse ops aops s c) := by
  cases c <;>
    refine ⟨fun e => ?_, ?_⟩ <;>
    simp [step, clientResponse, fetch_def, search_def, raw_fetch_def,
      raw_search_def, extract_def, afetch_def, asearch_def, araw_fetch_def,
      araw_search_def, aextract_def, map_error_iff, isOk_map]

/-- Witness for claim C5 at a concrete input: a client that raises makes the
entry point raise the identical error. -/
theorem exceptions_propagate_unchanged_witness :
    (step (errOps ("boom")) (errAops ("boom")) sampleSpec
      (Call.fetch ("https://example.com") ("Summarize"))).1 =
      .error ("boom") :=
  ((exceptions_propagate_unchanged (errOps ("boom")) (errAops ("boom"))
      sampleSpec (Call.fetch ("https://example.com") ("Summarize"))).1
    ("boom")).mpr rfl

/-- Claim C6: each asynchronous entry point awaits the cached async client's
own method — its event trace consists of the async-handle acquisition events
followed by one `callAsync` on that handle carrying the same arguments and
configured timeout as the synchronous variant — and it never invokes a
synchronous client method. -/
theorem async_entry_points_call_async_client (aops : AsyncClientOps K T E)
    (s : QuercleToolSpec K T) (url prompt q : String)
    (a b : Option (List String)) (f : Option String) (g : Option Bool) :
    ((s.afetch aops url prompt).2.2 =
       s.get_async_client.2.2 ++
         [Event.callAsync s.get_async_client.1
           (MethodCall.fetch ⟨url, prompt, s.timeout⟩)]) ∧
    (∀ cl m, Event.callSync cl m ∉ (s.afetch aops url prompt).2.2) ∧
    ((s.asearch aops q a b).2.2 =
       s.get_async_client.2.2 ++
         [Event.callAsync s.get_async_client.1
           (MethodCall.search ⟨q, a, b, s.timeout⟩)]) ∧
    (∀ cl m, Event.callSync cl m ∉ (s.asearch aops q a b).2.2) ∧
    ((s.araw_fetch aops url f g).2.2 =
       s.get_async_client.2.2 ++
         [Event.callAsync s.get_async_client.1
           (MethodCall.raw_fetch ⟨url, f, g, s.timeout⟩)]) ∧
    (∀ cl m, Event.callSync cl m ∉ (s.araw_fetch aops url f g).2.2) ∧
    ((s.araw_search aops q f g).2.2 =
       s.get_async_client.2.2 ++
         [Event.callAsync s.get_async_client.1
           (MethodCall.raw_search ⟨q, f, g, s.timeout⟩)]) ∧
    (∀ cl m, Event.callSync cl m ∉ (s.araw_search aops q f g).2.2) ∧
    ((s.aextract aops url q f g).2.2 =
       s.get_async_client.2.2 ++
         [Event.callAsync s.get_async_client.1
           (MethodCall.extract ⟨url, q, f, g, s.timeout⟩)]) ∧
    (∀ cl m, Event.callSync cl m ∉ (s.aextract aops url q f g).2.2) := by
  refine ⟨?_, ?_, ?_, ?_, ?_, ?_, ?_, ?_, ?_, ?_⟩ <;>
    simp [afetch_def, asearch_def, araw_fetch_def, araw_search_def,
      aextract_def] <;>
    (intro cl m hm
     rcases get_async_client_events s with he | he <;> simp [he] at hm)

/-- Witness for claim C6 at a concrete input: an async fetch from a fresh
adapter performs no synchronous client call. -/
theorem async_entry_points_call_async_client_witness :
    Event.callSync ⟨some ("test_key")⟩
        (MethodCall.fetch ⟨("https://example.com"), ("Summarize"), some 30⟩) ∉
      (sampleSpec.afetch (constAops envText) ("https://example.com")
        ("Summarize")).2.2 :=
  (async_entry_points_call_async_client (constAops envText) sampleSpec
    ("https://example.com") ("Summarize") ("q") none none none none).2.1
    ⟨some ("test_key")⟩
    (MethodCall.fetch ⟨("https://example.com"), ("Summarize"), some 30⟩)

/-- Claim C9: for each of the five operations, when the async client method
returns the same envelope (or error) as the sync client method on the same
forwarded arguments, the async variant returns the same value as the sync
variant. -/
theorem sync_async_variants_agree (ops : SyncClientOps K T E)
    (aops : AsyncClientOps K T E) (s : QuercleToolSpec K T)
    (url prompt q : String) (a b : Option (List String)) (f : Option String)
    (g : Option Bool) :
    (aops.fetch s.get_async_client.1 ⟨url, prompt, s.timeout⟩ =
       ops.fetch s.get_sync_client.1 ⟨url, prompt, s.timeout⟩ →
     (s.afetch aops url prompt).1 = (s.fetch ops url prompt).1) ∧
    (aops.search s.get_async_client.1 ⟨q, a, b, s.timeout⟩ =
       ops.search s.get_sync_client.1 ⟨q, a, b, s.timeout⟩ →
     (s.asearch aops q a b).1 = (s.search ops q a b).1) ∧
    (aops.raw_fetch s.get_async_client.1 ⟨url, f, g, s.timeout⟩ =
       ops.raw_fetch s.get_sync_client.1 ⟨url, f, g, s.timeout⟩ →
     (s.araw_fetch aops url f g).1 = (s.raw_fetch ops url f g).1) ∧
    (aops.raw_search s.get_async_client.1 ⟨q, f, g, s.timeout⟩ =
       ops.raw_search s.get_sync_client.1 ⟨q, f, g, s.timeout⟩ →
     (s.araw_search aops q f g).1 = (s.raw_search ops q f g).1) ∧
    (aops.extract s.get_async_client.1 ⟨url, q, f, g, s.timeout⟩ =
       ops.extract s.get_sync_client.1 ⟨url, q, f, g, s.timeout⟩ →
     (s.aextract aops url q f g).1 = (s.extract ops url q f g).1) := by
  refine ⟨?_, ?_, ?_, ?_, ?_⟩ <;> intro h <;>
    simp [afetch_def, fetch_def, asearch_def, search_def, araw_fetch_def,
      raw_fetch_def, araw_search_def, raw_search_def, aextract_def,
      extract_def, h]

/-- Witness for claim C9 at a concrete input: with client oracles returning
the same envelope, async and sync fetch agree. -/
theorem sync_async_variants_agree_witness :
    (sampleSpec.afetch (constAops envText) ("https://example.com")
      ("Summarize")).1 =
    (sampleSpec.fetch (constOps envText) ("https://example.com")
      ("Summarize")).1 :=
  (sync_async_variants_agree (constOps envText) (constAops envText) sampleSpec
    ("https://example.com") ("Summarize") ("q") none none none none).1 rfl

/-- Claim C10: every entry-point invocation leaves the adapter's credential
and timeout unchanged, a synchronous call leaves the async handle unchanged,
and an asynchronous call leaves the sync handle unchanged. -/
theorem operations_frame_config_and_other_mode (ops : SyncClientOps K T E)
    (aops : AsyncClientOps K T E) (s : QuercleToolSpec K T) (c : Call) :
    (step ops aops s c).2.1.api_key = s.api_key ∧
    (step ops aops s c).2.1.timeout = s.timeout ∧
    (c.isSync = true →
       (step ops aops s c).2.1.async_client = s.async_client) ∧
    (c.isSync = false →
       (step ops aops s c).2.1.sync_client = s.sync_client) := by
  have hs := step_state ops aops s c
  refine ⟨?_, ?_, ?_, ?_⟩
  · rw [hs]
    cases hc : c.isSync <;>
      simp [get_sync_client_api_key, get_async_client_api_key]
  · rw [hs]
    cases hc : c.isSync <;>
      simp [get_sync_client_timeout, get_async_client_timeout]
  · intro hc
    rw [hs]
    simp [hc, get_sync_client_async_client]
  · intro hc
    rw [hs]
    simp [hc, get_async_client_sync_client]

/-- Witness for claim C10 at a concrete input: a synchronous fetch leaves
the async handle untouched. -/
theorem operations_frame_config_and_other_mode_witness :
    (step (constOps envText) (constAops envText) sampleSpec
        (Call.fetch ("https://example.com") ("Summarize"))).2.1.async_client =
      sampleSpec.async_client :=
  (operations_frame_config_and_other_mode (constOps envText)
    (constAops envText) sampleSpec
    (Call.fetch ("https://example.com") ("Summarize"))).2.2.1 rfl

/-- Claim C8: each of the five factory functions, for any credential and
timeout, returns a tool descriptor whose name is the fixed
operation-specific identifier, whose description (supplied by the external
metadata table, assumed non-empty there) is non-empty, and whose entry
points are the matching operation pair of a freshly constructed adapter. -/
theorem factories_build_named_tools (md : QuercleToolMetadata)
    (api_key : Option K) (timeout : Option T)
    (hmd : ∀ op, md.description op ≠ "") :
    (create_quercle_fetch_tool md api_key timeout).name = "quercle_fetch" ∧
    (create_quercle_fetch_tool md api_key timeout).description ≠ "" ∧
    (create_quercle_fetch_tool md api_key timeout).adapter =
      QuercleToolSpec.init api_key timeout ∧
    (create_quercle_fetch_tool md api_key timeout).op = Op.fetch ∧
    (create_quercle_search_tool md api_key timeout).name = "quercle_search" ∧
    (create_quercle_search_tool md api_key timeout).description ≠ "" ∧
    (create_quercle_search_tool md api_key timeout).adapter =
      QuercleToolSpec.init api_key timeout ∧
    (create_quercle_search_tool md api_key timeout).op = Op.search ∧
    (create_quercle_raw_fetch_tool md api_key timeout).name =
      "quercle_raw_fetch" ∧
    (create_quercle_raw_fetch_tool md api_key timeout).description ≠ "" ∧
    (create_quercle_raw_fetch_tool md api_key timeout).adapter =
      QuercleToolSpec.init api_key timeout ∧
    (create_quercle_raw_fetch_tool md api_key timeout).op = Op.raw_fetch ∧
    (create_quercle_raw_search_tool md api_key timeout).name =
      "quercle_raw_search" ∧
    (create_quercle_raw_search_tool md api_key timeout).description ≠ "" ∧
    (create_quercle_raw_search_tool md api_key timeout).adapter =
      QuercleToolSpec.init api_key timeout ∧
    (create_quercle_raw_search_tool md api_key timeout).op = Op.raw_search ∧
    (create_quercle_extract_tool md api_key timeout).name =
      "quercle_extract" ∧
    (create_quercle_extract_tool md api_key timeout).description ≠ "" ∧
    (create_quercle_extract_tool md api_key timeout).adapter =
      QuercleToolSpec.init api_key timeout ∧
    (create_quercle_extract_tool md api_key timeout).op = Op.extract :=
  ⟨rfl, hmd Op.fetch, rfl, rfl, rfl, hmd Op.search, rfl, rfl, rfl,
   hmd Op.raw_fetch, rfl, rfl, rfl, hmd Op.raw_search, rfl, rfl, rfl,
   hmd Op.extract, rfl, rfl⟩

/-- Witness for claim C8 at a concrete input. -/
theorem factories_build_named_tools_witness :
    (create_quercle_fetch_tool sampleMetadata (none : Option String)
        (none : Option Nat)).name = "quercle_fetch" ∧
    (create_quercle_fetch_tool sampleMetadata (none : Option String)
        (none : Option Nat)).description ≠ "" :=
  ⟨(factories_build_named_tools sampleMetadata none none
      (by intro op; cases op <;> decide)).1,
   (factories_build_named_tools sampleMetadata none none
      (by intro op; cases op <;> decide)).2.1⟩
